import Mathlib

/-!
# PopGiftsApp — shallow embedding and verification

A shallow embedding of the PopGiftsApp backend's pure core:

* `MockGiftCardService` (catalog, search, issuance, recommendation),
* `SMSService.formatPhoneNumber` / `isValidPhoneNumber`,
* `GoogleAIService.generateImagePrompts` / `getFallbackPrompts`,
* `OrchestrationAgent.generateCard` / `analyzePrompt` and the four stub agents.

JavaScript strings are modelled as Lean `String` (ASCII case mapping),
JS numbers as `ℚ`, fallible operations as `Except String`, and the
nondeterministic inputs (`Date.now()`, `Math.random()`) as explicit
parameters.  The orchestrator additionally records the successive values
assigned to `currentStep` (a trace) and which agents were invoked, so
that temporal statements of the spec are statable.
-/

namespace PopGifts

/-! ## JS string helpers -/

/-- `needle` is a prefix of `hay` (character lists). -/
def charsPrefix : List Char → List Char → Bool
  | [], _ => true
  | _ :: _, [] => false
  | a :: as, b :: bs => a == b && charsPrefix as bs

/-- `needle` occurs as a contiguous substring of `hay` (JS `String.includes`). -/
def charsContains (needle : List Char) : List Char → Bool
  | [] => charsPrefix needle []
  | c :: rest => charsPrefix needle (c :: rest) || charsContains needle rest

/-- JS `hay.includes(needle)`. -/
def strIncludes (hay needle : String) : Bool :=
  charsContains needle.toList hay.toList

/-- JS `s.toLowerCase()` (ASCII model). -/
def jsToLower (s : String) : String := String.mk (s.toList.map Char.toLower)

/-- Split a character list at every occurrence of `sep` (JS `s.split(sep)`
for a one-character separator). -/
def splitChar (sep : Char) : List Char → List (List Char)
  | [] => [[]]
  | c :: rest =>
    match splitChar sep rest with
    | [] => [[]]
    | g :: gs => if c == sep then [] :: g :: gs else (c :: g) :: gs

/-- JS `s.split(sep)` for a one-character separator. -/
def jsSplit (s : String) (sep : Char) : List String :=
  (splitChar sep s.toList).map String.mk

/-- Join strings with a single-space separator (JS `xs.join(' ')`). -/
def joinSpace : List String → String
  | [] => ""
  | [s] => s
  | s :: rest => s ++ " " ++ joinSpace rest

/-- JS `s.trim()` (ASCII-whitespace model). -/
def jsTrim (s : String) : String :=
  String.mk (((s.toList.dropWhile Char.isWhitespace).reverse.dropWhile
    Char.isWhitespace).reverse)

/-- JS `s.startsWith(p)`. -/
def jsStartsWith (s p : String) : Bool :=
  charsPrefix p.toList s.toList

/-- Truthiness of a JS string-or-undefined value (`undefined` and `""` are falsy). -/
def optTruthy : Option String → Bool
  | none => false
  | some s => !(s == "")

/-- JS template interpolation of a string-or-undefined value. -/
def tmplStr : Option String → String
  | some s => s
  | none => "undefined"

/-! ## Gift Catalog Store (`MockGiftCardService`, src/unnamed/part_000) -/

structure GiftCardMerchant where
  id : String
  name : String
  logo_url : String
  categories : List String
  min_value : ℚ
  max_value : ℚ
  currency : String
  available : Bool
  description : Option String
  deriving DecidableEq, Repr

/-- The in-memory catalog `mockCatalog`, in declaration order. -/
def mockCatalog : List GiftCardMerchant := [
  { id := "amazon", name := "Amazon", logo_url := "https://logo.clearbit.com/amazon.com",
    categories := ["retail", "electronics", "books"], min_value := 1, max_value := 2000,
    currency := "USD", available := true,
    description := some "Shop millions of products on Amazon" },
  { id := "starbucks", name := "Starbucks", logo_url := "https://logo.clearbit.com/starbucks.com",
    categories := ["food", "coffee", "dining"], min_value := 5, max_value := 500,
    currency := "USD", available := true,
    description := some "Coffee, tea, and more at Starbucks" },
  { id := "target", name := "Target", logo_url := "https://logo.clearbit.com/target.com",
    categories := ["retail", "home", "clothing"], min_value := 10, max_value := 1000,
    currency := "USD", available := true,
    description := some "Expect More. Pay Less." },
  { id := "walmart", name := "Walmart", logo_url := "https://logo.clearbit.com/walmart.com",
    categories := ["retail", "grocery", "electronics"], min_value := 5, max_value := 1000,
    currency := "USD", available := true,
    description := some "Save Money. Live Better." },
  { id := "apple", name := "Apple", logo_url := "https://logo.clearbit.com/apple.com",
    categories := ["electronics", "technology"], min_value := 25, max_value := 2000,
    currency := "USD", available := true,
    description := some "For apps, games, music, and more" },
  { id := "spotify", name := "Spotify", logo_url := "https://logo.clearbit.com/spotify.com",
    categories := ["entertainment", "music"], min_value := 10, max_value := 100,
    currency := "USD", available := true,
    description := some "Music for everyone" },
  { id := "netflix", name := "Netflix", logo_url := "https://logo.clearbit.com/netflix.com",
    categories := ["entertainment", "streaming"], min_value := 25, max_value := 200,
    currency := "USD", available := true,
    description := some "Watch TV shows and movies" },
  { id := "uber", name := "Uber", logo_url := "https://logo.clearbit.com/uber.com",
    categories := ["transportation", "food"], min_value := 15, max_value := 500,
    currency := "USD", available := true,
    description := some "Rides and food delivery" },
  { id := "doordash", name := "DoorDash", logo_url := "https://logo.clearbit.com/doordash.com",
    categories := ["food", "delivery"], min_value := 15, max_value := 500,
    currency := "USD", available := true,
    description := some "Food delivery from your favorite restaurants" },
  { id := "sephora", name := "Sephora", logo_url := "https://logo.clearbit.com/sephora.com",
    categories := ["beauty", "cosmetics"], min_value := 10, max_value := 500,
    currency := "USD", available := true,
    description := some "Beauty products and cosmetics" },
  { id := "nike", name := "Nike", logo_url := "https://logo.clearbit.com/nike.com",
    categories := ["sports", "clothing", "shoes"], min_value := 25, max_value := 500,
    currency := "USD", available := true,
    description := some "Athletic shoes and apparel" },
  { id := "bestbuy", name := "Best Buy", logo_url := "https://logo.clearbit.com/bestbuy.com",
    categories := ["electronics", "technology"], min_value := 15, max_value := 2000,
    currency := "USD", available := true,
    description := some "Electronics and appliances" }]

/-- The filter predicate of `searchGiftCards` for a (lower-cased) query:
name, description (optional chaining: missing description is falsy),
or some category contains the query as a substring. -/
def queryMatches (lowerQuery : String) (m : GiftCardMerchant) : Bool :=
  strIncludes (jsToLower m.name) lowerQuery
  || (match m.description with
      | some d => strIncludes (jsToLower d) lowerQuery
      | none => false)
  || m.categories.any (fun c => strIncludes (jsToLower c) lowerQuery)

/-- `MockGiftCardService.searchGiftCards(query?, category?)`.  Each filter
is applied only when the corresponding argument is truthy (JS `if (query)`). -/
def searchGiftCards (query category : Option String) : List GiftCardMerchant :=
  let results := mockCatalog
  let results :=
    if optTruthy query then
      results.filter (queryMatches (jsToLower (query.getD "")))
    else results
  let results :=
    if optTruthy category then
      results.filter (fun m => m.categories.contains (jsToLower (category.getD "")))
    else results
  results

/-- `MockGiftCardService.getMerchant(merchantId)`. -/
def getMerchant (merchantId : String) : Option GiftCardMerchant :=
  (mockCatalog.find? (fun m => m.id == merchantId))

/-- The concatenation scored against interests in `recommendGiftCards`:
`` `${name} ${description} ${categories.join(' ')}`.toLowerCase() ``. -/
def merchantText (m : GiftCardMerchant) : String :=
  jsToLower (m.name ++ " " ++ tmplStr m.description ++ " "
    ++ joinSpace m.categories)

/-- The filter predicate of `recommendGiftCards`: some interest occurs
(case-insensitively) in the merchant's text. -/
def interestMatches (interests : List String) (m : GiftCardMerchant) : Bool :=
  interests.any (fun interest => strIncludes (merchantText m) (jsToLower interest))

/-- `MockGiftCardService.recommendGiftCards(interests, occasion?, limit = 3)`.
The `occasion` argument is accepted but unused by the implementation. -/
def recommendGiftCards (interests : List String) (_occasion : Option String)
    (limit : Nat := 3) : List GiftCardMerchant :=
  let recommendations := mockCatalog.filter (interestMatches interests)
  if recommendations.length = 0 then
    mockCatalog.take limit
  else
    recommendations.take limit

/-- The nondeterministic inputs of an issuance call: `Date.now()` and the
`Math.random()`-derived id suffix, code and PIN. -/
structure IssuanceEnv where
  nowMs : Nat
  randSuffix : String
  code : String
  pin : String
  deriving Repr

structure GiftCard where
  id : String
  merchant_id : String
  merchant_name : String
  amount : ℚ
  currency : String
  code : String
  pin : String
  redemption_url : String
  wallet_pass_url : String
  qr_code_url : String
  /-- millisecond timestamp; the ISO-8601 rendering is abstracted -/
  expires_at : Nat
  status : String
  /-- millisecond timestamp; the ISO-8601 rendering is abstracted -/
  created_at : Nat
  deriving Repr

/-- `MockGiftCardService.issueGiftCard(merchantId, amount, recipientEmail, metadata?)`.
Throws (modelled as `Except.error`) on unknown merchant or out-of-range amount. -/
def issueGiftCard (merchantId : String) (amount : ℚ) (_recipientEmail : String)
    (env : IssuanceEnv) : Except String GiftCard :=
  match getMerchant merchantId with
  | none => .error ("Merchant " ++ merchantId ++ " not found")
  | some merchant =>
    if amount < merchant.min_value ∨ amount > merchant.max_value then
      .error ("Amount must be between $" ++ toString merchant.min_value
        ++ " and $" ++ toString merchant.max_value)
    else
      let giftCardId := "gc_mock_" ++ toString env.nowMs ++ "_" ++ env.randSuffix
      .ok {
        id := giftCardId,
        merchant_id := merchantId,
        merchant_name := merchant.name,
        amount := amount,
        currency := "USD",
        code := env.code,
        pin := env.pin,
        redemption_url := "https://mock-redemption.com/" ++ merchantId ++ "?code=" ++ giftCardId,
        wallet_pass_url := "https://mock-wallet.com/pass/" ++ giftCardId,
        qr_code_url :=
          "https://api.qrserver.com/v1/create-qr-code/?size=300x300&data=" ++ giftCardId,
        expires_at := env.nowMs + 365 * 24 * 60 * 60 * 1000,
        status := "active",
        created_at := env.nowMs }

structure ProductGiftCard extends GiftCard where
  product_url : String
  product_name : String
  product_image_url : String
  cart_preload_url : String
  allow_cash_conversion : Bool
  deriving Repr

/-- `MockGiftCardService.extractProductName(url)`: last `/`-segment (or
`"Product"` when falsy), `-` → space, drop from the first `?`, first 50 chars. -/
def extractProductName (url : String) : String :=
  let urlParts := jsSplit url '/'
  let lastPart := urlParts.getLastD ""
  let lastPart := if lastPart = "" then "Product" else lastPart
  String.mk ((((lastPart.toList.map (fun c => if c == '-' then ' ' else c))).takeWhile
    (fun c => c != '?')).take 50)

/-- Rounding to two decimals, modelling `parseFloat(x.toFixed(2))`. -/
def round2 (q : ℚ) : ℚ := (⌊q * 100 + 1/2⌋ : ℚ) / 100

/-- `MockGiftCardService.estimateProductPrice(url)`:
`parseFloat((20 + Math.random() * 180).toFixed(2))`, with the `Math.random()`
draw `r ∈ [0, 1)` made an explicit parameter. -/
def estimateProductPrice (r : ℚ) : ℚ := round2 (20 + r * 180)

/-- `MockGiftCardService.issueProductGiftCard(merchantId, productUrl,
recipientEmail, metadata?)`: the amount is the mock price estimate, passed
through `issueGiftCard` (and hence its range check). -/
def issueProductGiftCard (merchantId productUrl recipientEmail : String)
    (r : ℚ) (env : IssuanceEnv) : Except String ProductGiftCard :=
  match getMerchant merchantId with
  | none => .error ("Merchant " ++ merchantId ++ " not found")
  | some _merchant =>
    let productName := extractProductName productUrl
    let estimatedPrice := estimateProductPrice r
    match issueGiftCard merchantId estimatedPrice recipientEmail env with
    | .error e => .error e
    | .ok gc => .ok {
        toGiftCard := gc,
        product_url := productUrl,
        product_name := productName,
        product_image_url :=
          "https://via.placeholder.com/300x300?text=" ++ productName,
        cart_preload_url := productUrl ++ "?gift_card=" ++ gc.id,
        allow_cash_conversion := true }

/-- Is an `Except` result an error (a thrown JS exception)? -/
def isErr {α : Type} : Except String α → Bool
  | .error _ => true
  | .ok _ => false

/-! ## Messaging Gateway (`SMSService`, src/unnamed/part_001) -/

/-- The digits of a phone string: `phone.replace(/\D/g, '')`. -/
def digitsOf (phone : String) : List Char :=
  phone.toList.filter Char.isDigit

/-- `SMSService.formatPhoneNumber(phone)`: E.164 normalization.  The checks
run in source order: 10 digits → `+1` prefix; 11 digits starting `1` → `+`
prefix; otherwise an input beginning `+` passes through; otherwise `+` is
prepended to the digits. -/
def formatPhoneNumber (phone : String) : String :=
  let digits := digitsOf phone
  if digits.length = 10 then
    "+1" ++ String.mk digits
  else if digits.length = 11 ∧ digits.head? = some '1' then
    "+" ++ String.mk digits
  else if jsStartsWith phone "+" then
    phone
  else
    "+" ++ String.mk digits

/-- The regex `/^\+\d{11,15}$/` of `isValidPhoneNumber`. -/
def e164Match (s : String) : Bool :=
  match s.toList with
  | '+' :: rest =>
    rest.all Char.isDigit && decide (11 ≤ rest.length) && decide (rest.length ≤ 15)
  | _ => false

/-- `SMSService.isValidPhoneNumber(phone)`: format, then regex check. -/
def isValidPhoneNumber (phone : String) : Bool :=
  e164Match (formatPhoneNumber phone)

/-! ## Generative Content Gateway (`GoogleAIService`, src/unnamed/part_000) -/

/-- The madlib input of `GoogleAIService` (google-ai-service.ts). -/
structure MadlibInputG where
  recipient_name : String
  occasion : String
  age : Option ℚ
  interests : List String
  style : Option String
  message : Option String
  deriving Repr

/-- Join with `", "` (JS `interests.join(', ')`). -/
def joinCommaSpace : List String → String
  | [] => ""
  | [s] => s
  | s :: rest => s ++ ", " ++ joinCommaSpace rest

/-- `GoogleAIService.getFallbackPrompts(input)`: the hand-written
3-prompt triplet parameterized by occasion and interests. -/
def getFallbackPrompts (input : MadlibInputG) : List String :=
  let occasion := jsToLower input.occasion
  let interests := joinCommaSpace input.interests
  [ "A vibrant, modern " ++ occasion
      ++ " card with colorful balloons, confetti, and celebration elements. "
      ++ "Include themes related to " ++ interests
      ++ ". Bright, joyful colors with a festive atmosphere.",
    "An elegant " ++ occasion
      ++ " card with a minimalist design, featuring soft pastel colors and "
      ++ "delicate decorations. Subtle references to " ++ interests
      ++ ". Clean, sophisticated style.",
    "A playful, fun " ++ occasion
      ++ " card with bold colors and dynamic composition. Incorporate elements of "
      ++ interests ++ " in a creative way. Energetic and cheerful mood." ]

/-- Does the regex `/^\d+[.):]/` match at the start of `cs`? -/
def numPrefixMatch (cs : List Char) : Bool :=
  match cs with
  | c :: rest =>
    c.isDigit &&
      (match rest.dropWhile Char.isDigit with
       | d :: _ => d == '.' || d == ')' || d == ':'
       | [] => false)
  | [] => false

/-- JS `line.replace(/^\d+[.):]\s*/, '')`: strip a leading numbered-list
marker and following whitespace; leave the line unchanged when the
(anchored) regex does not match. -/
def stripNumPrefix (cs : List Char) : List Char :=
  if numPrefixMatch cs then
    ((cs.dropWhile Char.isDigit).tail).dropWhile Char.isWhitespace
  else cs

/-- The line-parsing pipeline of `GoogleAIService.generateImagePrompts`:
split on newlines, keep lines whose trimmed text matches `/^\d+[.):]/`,
strip the (anchored, untrimmed) marker and trim, drop empties, take 3. -/
def parsedPrompts (text : String) : List String :=
  ((((jsSplit text '\n').filter
      (fun line => numPrefixMatch (jsTrim line).toList)).map
      (fun line => jsTrim (String.mk (stripNumPrefix line.toList)))).filter
      (fun line => line.length > 0)).take 3

/-- `GoogleAIService.generateImagePrompts(input)`.  The remote Gemini call
is abstracted as its observable outcome: `none` when it throws, `some text`
when it returns `text`.  Fewer than 3 parsed prompts (or a throw) yields
the fallback triplet. -/
def generateImagePrompts (result : Option String) (input : MadlibInputG) :
    List String :=
  match result with
  | none => getFallbackPrompts input
  | some text =>
    let prompts := parsedPrompts text
    if prompts.length < 3 then getFallbackPrompts input else prompts

/-! ## Workflow Orchestrator (`OrchestrationAgent`, orchestration-agent.ts)
and the four stub agents -/

/-- A recursive design-tree node (`LayerTree`, types/card.ts); style
values are abstracted to strings. -/
inductive LayerTree where
  | node (id : String) (type : String) (content : Option String)
      (style : List (String × String)) (children : List LayerTree)
  deriving Repr

structure PromptAnalysis where
  occasion : String
  recipient : Option String
  age : Option ℚ
  interests : List String
  tone : String
  illustrationStyle : String
  deriving Repr

structure GiftRecommendation where
  merchant : String
  amount : ℚ
  reason : String
  relevance : ℚ
  deriving Repr

structure SuggestedFriend where
  name : String
  phone : String
  relationship : String
  reason : String
  likelihood : String
  deriving Repr

structure IllustrationRequest where
  freeformPrompt : String
  occasion : String
  recipientName : Option String
  interests : List String
  style : String
  deriving Repr

structure IllustrationResult where
  success : Bool
  layerTree : Option LayerTree
  variations : Option (List LayerTree)
  error : Option String
  deriving Repr

structure EditResult where
  success : Bool
  layerTree : Option LayerTree
  error : Option String
  deriving Repr

structure GiftResult where
  giftCards : List GiftRecommendation
  suggestedFriends : List SuggestedFriend
  deriving Repr

/-- `CardGenerationState` (orchestration-agent.ts). -/
structure CardGenerationState where
  prompt : String
  madlibInput : Option (List (String × String))
  userId : Option String
  analysis : Option PromptAnalysis
  layerTree : Option LayerTree
  variations : Option (List LayerTree)
  giftRecommendations : Option (List GiftRecommendation)
  suggestedFriends : Option (List SuggestedFriend)
  currentStep : String
  errors : List String
  startTime : Nat
  deriving Repr

/-- The decoded JSON object of `analyzePrompt`'s model response as it is
read field-by-field; a field missing from the JSON is `none` (JS
`undefined`).  An overall value of `none` stands for a thrown network or
`JSON.parse` error. -/
structure AnalysisJson where
  occasion : Option String
  recipient : Option String
  age : Option ℚ
  interests : Option (List String)
  tone : Option String
  illustrationStyle : Option String
  deriving Repr

/-- JS `x || d` for a string field (`undefined` and `""` fall back). -/
def jsOrStr : Option String → String → String
  | some s, d => if s = "" then d else s
  | none, d => d

/-- JS `x || undefined` for a string field. -/
def jsOrUndefStr : Option String → Option String
  | some s => if s = "" then none else some s
  | none => none

/-- JS `x || undefined` for a numeric field (`0` is falsy). -/
def jsOrUndefNum : Option ℚ → Option ℚ
  | some a => if a = 0 then none else some a
  | none => none

/-- `OrchestrationAgent.analyzePrompt(prompt)`: the remote call and JSON
decode are abstracted as their outcome `decoded` (`none` = any throw).
A throw yields the fixed fallback analysis; a decoded object is
normalized field-by-field with JS `||` defaults. -/
def analyzePrompt (decoded : Option AnalysisJson) : PromptAnalysis :=
  match decoded with
  | some a =>
    { occasion := jsOrStr a.occasion "celebration",
      recipient := jsOrUndefStr a.recipient,
      age := jsOrUndefNum a.age,
      interests := a.interests.getD [],
      tone := jsOrStr a.tone "celebratory",
      illustrationStyle := jsOrStr a.illustrationStyle "cartoon" }
  | none =>
    { occasion := "celebration", recipient := none, age := none,
      interests := [], tone := "celebratory", illustrationStyle := "cartoon" }

/-- The fixed fallback `PromptAnalysis` of the generation gateway. -/
def fallbackAnalysis : PromptAnalysis :=
  { occasion := "celebration", recipient := none, age := none,
    interests := [], tone := "celebratory", illustrationStyle := "cartoon" }

/-- The illustration request built by `generateCard` from the prompt and
analysis. -/
def mkIllustrationRequest (prompt : String) (analysis : PromptAnalysis) :
    IllustrationRequest :=
  { freeformPrompt := prompt, occasion := analysis.occasion,
    recipientName := analysis.recipient, interests := analysis.interests,
    style := analysis.illustrationStyle }

/-- The editing step's tree update:
`if (editResult.success && editResult.layerTree) state.layerTree = editResult.layerTree`
— keep the prior tree on any editor failure, silently. -/
def editStepTree (tree : LayerTree) (editResult : EditResult) : LayerTree :=
  match editResult.success, editResult.layerTree with
  | true, some t => t
  | _, _ => tree

/-- The four agents as the orchestrator sees them.  `generateCard` is
generic in what the awaited agent calls return; the concrete stub
implementations are `actualAgents` below. -/
structure AgentStubs where
  illustrate : IllustrationRequest → IllustrationResult
  refineTextLayers : LayerTree → PromptAnalysis → EditResult
  addAnimations : LayerTree → PromptAnalysis → LayerTree
  recommendGifts : PromptAnalysis → String → GiftResult

/-- The outcome of one `generateCard` run: the returned state, the
successive values assigned to `state.currentStep` in order, and which
downstream agents were invoked. -/
structure WorkflowRun where
  state : CardGenerationState
  trace : List String
  editorCalled : Bool
  animatorCalled : Bool
  giftCalled : Bool
  deriving Repr

/-- `OrchestrationAgent.generateCard(prompt, userId?)`.  The only throw
inside the `try` block of the model is the explicit
`throw new Error('Illustration generation failed')`; the surrounding
`catch` appends the message and forces `currentStep = 'failed'`, still
returning the partial state.  Note `currentStep = 'shopping'` is assigned
before the `if (userId)` guard, so it appears in every successful trace. -/
def generateCard (agents : AgentStubs) (decoded : Option AnalysisJson)
    (prompt : String) (userId : Option String) (startTime : Nat) :
    WorkflowRun :=
  let state0 : CardGenerationState :=
    { prompt := prompt, madlibInput := none, userId := userId,
      analysis := none, layerTree := none, variations := none,
      giftRecommendations := none, suggestedFriends := none,
      currentStep := "start", errors := [], startTime := startTime }
  -- Step 1: analyze prompt (cannot throw; see `analyzePrompt`)
  let analysis := analyzePrompt decoded
  let s1 := { state0 with currentStep := "analyzing", analysis := some analysis }
  -- Step 2: illustrate
  let illustrationResult := agents.illustrate (mkIllustrationRequest prompt analysis)
  match illustrationResult.success, illustrationResult.layerTree with
  | true, some tree =>
    let s2 := { s1 with
      currentStep := "illustrating"
      layerTree := some tree
      variations := some (illustrationResult.variations.getD []) }
    -- Step 3: refine text (soft fail: keep prior tree, no error recorded)
    let editResult := agents.refineTextLayers tree analysis
    let treeAfterEdit := editStepTree tree editResult
    let s3 := { s2 with currentStep := "editing", layerTree := some treeAfterEdit }
    -- Step 4: animate (output unconditionally replaces the tree)
    let animatedTree := agents.addAnimations treeAfterEdit analysis
    let s4 := { s3 with currentStep := "animating", layerTree := some animatedTree }
    -- Step 5: `currentStep = 'shopping'` is set unconditionally; the gift
    -- agent only runs when a userId was supplied
    match userId with
    | some uid =>
      let giftResult := agents.recommendGifts analysis uid
      let s5 := { s4 with
        currentStep := "shopping"
        giftRecommendations := some giftResult.giftCards
        suggestedFriends := some giftResult.suggestedFriends }
      { state := { s5 with currentStep := "complete" }
        trace := ["start", "analyzing", "illustrating", "editing", "animating",
                  "shopping", "complete"]
        editorCalled := true
        animatorCalled := true
        giftCalled := true }
    | none =>
      { state := { s4 with currentStep := "complete" }
        trace := ["start", "analyzing", "illustrating", "editing", "animating",
                  "shopping", "complete"]
        editorCalled := true
        animatorCalled := true
        giftCalled := false }
  | _, _ =>
    -- `!illustrationResult.success || !illustrationResult.layerTree`
    { state := { s1 with
        currentStep := "failed"
        errors := s1.errors ++ ["Illustration generation failed"] }
      trace := ["start", "analyzing", "illustrating", "failed"]
      editorCalled := false
      animatorCalled := false
      giftCalled := false }

/-- `IllustratorAgent.generateDesign` (illustrator-agent.ts, stub). -/
def illustratorGenerateDesign (request : IllustrationRequest) :
    IllustrationResult :=
  let layerTree : LayerTree :=
    .node "root" "container" none []
      [ .node "background" "shape" none [("backgroundColor", "#f0f8ff")] [],
        .node "main-text" "text" (some ("Happy " ++ request.occasion ++ "!"))
          [("fontSize", "24px"), ("color", "#333")] [] ]
  { success := true, layerTree := some layerTree,
    variations := some [layerTree], error := none }

/-- `EditorAgent.refineTextLayers` (editor-agent.ts, stub): pass-through
reported as success. -/
def editorRefineTextLayers (layerTree : LayerTree) (_analysis : PromptAnalysis) :
    EditResult :=
  { success := true, layerTree := some layerTree, error := none }

/-- `AnimatorAgent.addAnimations` (stub): identity on the tree. -/
def animatorAddAnimations (layerTree : LayerTree) (_analysis : PromptAnalysis) :
    LayerTree :=
  layerTree

/-- `GiftAgent.recommendGifts` (stub): empty recommendations. -/
def giftAgentRecommendGifts (_analysis : PromptAnalysis) (_userId : String) :
    GiftResult :=
  { giftCards := [], suggestedFriends := [] }

/-- The concrete stub agents wired up by `OrchestrationAgent`'s constructor. -/
def actualAgents : AgentStubs :=
  { illustrate := illustratorGenerateDesign,
    refineTextLayers := editorRefineTextLayers,
    addAnimations := animatorAddAnimations,
    recommendGifts := giftAgentRecommendGifts }

/-- Agents whose illustration stub reports failure; the other stubs are
the real ones.  Used to exercise the abort path. -/
def failingIllustratorAgents : AgentStubs :=
  { actualAgents with
    illustrate := fun _ =>
      { success := false, layerTree := none, variations := none,
        error := some "Artwork API down" } }

/-- Agents whose text-editing stub reports failure; the other stubs are
the real ones.  Used to exercise the soft-fail path. -/
def failingEditorAgents : AgentStubs :=
  { actualAgents with
    refineTextLayers := fun _ _ =>
      { success := false, layerTree := none, error := some "editor down" } }

/-! ## Theorems -/

/-- **C1.** For every issuance call: unknown merchant id fails with the
"merchant not found" error; an amount outside the merchant's closed
interval `[min_value, max_value]` fails with the "amount out of range"
error; a known merchant and in-range amount succeeds with the returned
card's `amount` equal to the requested amount and `merchant_id` equal to
the requested id (never clamped). -/
theorem claim_C1_issuance (merchantId : String) (amount : ℚ) (email : String)
    (env : IssuanceEnv) :
    (getMerchant merchantId = none →
      issueGiftCard merchantId amount email env =
        .error ("Merchant " ++ merchantId ++ " not found"))
    ∧ (∀ m, getMerchant merchantId = some m →
        (amount < m.min_value ∨ amount > m.max_value) →
        issueGiftCard merchantId amount email env =
          .error ("Amount must be between $" ++ toString m.min_value
            ++ " and $" ++ toString m.max_value))
    ∧ (∀ m, getMerchant merchantId = some m →
        m.min_value ≤ amount → amount ≤ m.max_value →
        ∃ card, issueGiftCard merchantId amount email env = .ok card
          ∧ card.amount = amount ∧ card.merchant_id = merchantId) := by
  refine ⟨?_, ?_, ?_⟩
  · intro h
    unfold issueGiftCard
    rw [h]
  · intro m hm hr
    unfold issueGiftCard
    rw [hm]
    simp only [if_pos hr]
  · intro m hm h1 h2
    have hcond : ¬(amount < m.min_value ∨ amount > m.max_value) := by
      push_neg
      exact ⟨h1, h2⟩
    unfold issueGiftCard
    rw [hm]
    simp only [if_neg hcond]
    exact ⟨_, rfl, rfl, rfl⟩

/-- Witness for C1 at concrete inputs: an unknown merchant, an
out-of-range Spotify amount, and a successful Starbucks issuance. -/
theorem claim_C1_issuance_witness :
    issueGiftCard "nope" 10 "a@b.com" ⟨0, "r", "c", "p"⟩ =
      .error ("Merchant " ++ "nope" ++ " not found")
    ∧ issueGiftCard "spotify" 150 "a@b.com" ⟨0, "r", "c", "p"⟩ =
      .error ("Amount must be between $" ++ toString (10 : ℚ)
        ++ " and $" ++ toString (100 : ℚ))
    ∧ ∃ card, issueGiftCard "starbucks" 10 "a@b.com" ⟨0, "r", "c", "p"⟩ = .ok card
        ∧ card.amount = 10 ∧ card.merchant_id = "starbucks" :=
  ⟨(claim_C1_issuance "nope" 10 "a@b.com" ⟨0, "r", "c", "p"⟩).1 (by decide),
   (claim_C1_issuance "spotify" 150 "a@b.com" ⟨0, "r", "c", "p"⟩).2.1
     ⟨"spotify", "Spotify", "https://logo.clearbit.com/spotify.com",
      ["entertainment", "music"], 10, 100, "USD", true, some "Music for everyone"⟩
     (by decide) (by decide),
   (claim_C1_issuance "starbucks" 10 "a@b.com" ⟨0, "r", "c", "p"⟩).2.2
     ⟨"starbucks", "Starbucks", "https://logo.clearbit.com/starbucks.com",
      ["food", "coffee", "dining"], 5, 500, "USD", true,
      some "Coffee, tea, and more at Starbucks"⟩
     (by decide) (by decide) (by decide)⟩

/-- **C4.** `recommendGiftCards` with interests matching zero merchants
returns exactly the first `min(limit, catalog_size)` catalog entries in
declaration order (non-empty whenever `limit > 0`); with at least one
match it returns only matching merchants, at most `limit` of them. -/
theorem claim_C4_recommend (interests : List String) (occasion : Option String)
    (limit : Nat) :
    (mockCatalog.filter (interestMatches interests) = [] →
      recommendGiftCards interests occasion limit = mockCatalog.take limit
      ∧ (recommendGiftCards interests occasion limit).length =
          min limit mockCatalog.length
      ∧ (0 < limit → recommendGiftCards interests occasion limit ≠ []))
    ∧ (mockCatalog.filter (interestMatches interests) ≠ [] →
      (∀ m ∈ recommendGiftCards interests occasion limit,
        interestMatches interests m = true)
      ∧ (recommendGiftCards interests occasion limit).length ≤ limit) := by
  constructor
  · intro h
    have hz : (mockCatalog.filter (interestMatches interests)).length = 0 := by
      rw [h]; rfl
    have heq : recommendGiftCards interests occasion limit = mockCatalog.take limit := by
      unfold recommendGiftCards
      rw [if_pos hz]
    refine ⟨heq, ?_, ?_⟩
    · rw [heq, List.length_take]
    · intro hpos
      rw [heq]
      intro hnil
      rcases List.take_eq_nil_iff.mp hnil with h' | h'
      · omega
      · exact absurd h' (by decide)
  · intro h
    have hz : ¬(mockCatalog.filter (interestMatches interests)).length = 0 := by
      intro h0
      exact h (List.length_eq_zero.mp h0)
    have heq : recommendGiftCards interests occasion limit =
        (mockCatalog.filter (interestMatches interests)).take limit := by
      unfold recommendGiftCards
      rw [if_neg hz]
    constructor
    · intro m hmem
      rw [heq] at hmem
      exact List.of_mem_filter (List.take_subset _ _ hmem)
    · rw [heq, List.length_take]
      exact Nat.min_le_left _ _

/-- Witness for C4: the interest `"zzzqq"` matches no merchant, so the
result is the first three catalog entries; `"coffee"` matches, so every
result matches and the result fits the limit. -/
theorem claim_C4_recommend_witness :
    (recommendGiftCards ["zzzqq"] none 3 = mockCatalog.take 3
      ∧ (recommendGiftCards ["zzzqq"] none 3).length = min 3 mockCatalog.length
      ∧ (0 < 3 → recommendGiftCards ["zzzqq"] none 3 ≠ []))
    ∧ ((∀ m ∈ recommendGiftCards ["coffee"] none 3,
          interestMatches ["coffee"] m = true)
      ∧ (recommendGiftCards ["coffee"] none 3).length ≤ 3) :=
  ⟨(claim_C4_recommend ["zzzqq"] none 3).1 (by decide),
   (claim_C4_recommend ["coffee"] none 3).2 (by decide)⟩

/-- **C6.** Every `searchGiftCards` result is a catalog entry; when a
(truthy) query is supplied every result matches it case-insensitively
against name, description, or some category; when a (truthy) category is
supplied every result has the lower-cased category as an exact member of
its category list; both filters apply together (AND semantics). -/
theorem claim_C6_search (query category : Option String) :
    (∀ m ∈ searchGiftCards query category, m ∈ mockCatalog)
    ∧ (∀ q, query = some q → q ≠ "" →
        ∀ m ∈ searchGiftCards query category,
          queryMatches (jsToLower q) m = true)
    ∧ (∀ c, category = some c → c ≠ "" →
        ∀ m ∈ searchGiftCards query category,
          jsToLower c ∈ m.categories) := by
  have main : ∀ m ∈ searchGiftCards query category,
      m ∈ mockCatalog
      ∧ (optTruthy query = true →
          queryMatches (jsToLower (query.getD "")) m = true)
      ∧ (optTruthy category = true →
          m.categories.contains (jsToLower (category.getD "")) = true) := by
    intro m hm
    unfold searchGiftCards at hm
    by_cases hq : optTruthy query = true <;>
      by_cases hc : optTruthy category = true <;>
        simp only [hq, hc, if_pos, if_neg, Bool.false_eq_true, if_false,
          List.mem_filter] at hm
    · exact ⟨hm.1.1, fun _ => hm.1.2, fun _ => hm.2⟩
    · exact ⟨hm.1, fun _ => hm.2, fun h => absurd h hc⟩
    · exact ⟨hm.1, fun h => absurd h hq, fun _ => hm.2⟩
    · exact ⟨hm, fun h => absurd h hq, fun h => absurd h hc⟩
  refine ⟨fun m hm => (main m hm).1, ?_, ?_⟩
  · intro q hq hq' m hm
    have ht : optTruthy query = true := by
      rw [hq]
      simpa [optTruthy] using hq'
    have := (main m hm).2.1 ht
    rwa [hq] at this
  · intro c hc hc' m hm
    have ht : optTruthy category = true := by
      rw [hc]
      simpa [optTruthy] using hc'
    have := (main m hm).2.2 ht
    rw [hc] at this
    exact List.mem_of_elem_eq_true this

/-- Witness for C6 at a concrete AND-query: searching `"coffee"` in
category `"food"` yields results in the catalog that match both. -/
theorem claim_C6_search_witness :
    (∀ m ∈ searchGiftCards (some "coffee") (some "food"), m ∈ mockCatalog)
    ∧ (∀ m ∈ searchGiftCards (some "coffee") (some "food"),
        queryMatches (jsToLower "coffee") m = true)
    ∧ (∀ m ∈ searchGiftCards (some "coffee") (some "food"),
        jsToLower "food" ∈ m.categories) :=
  ⟨(claim_C6_search (some "coffee") (some "food")).1,
   (claim_C6_search (some "coffee") (some "food")).2.1 "coffee" rfl (by decide),
   (claim_C6_search (some "coffee") (some "food")).2.2 "food" rfl (by decide)⟩

/-- **C5, counterexample.** The claim says an input already starting with
`+` passes through unchanged, but the digit-count rules run first:
`"+5551234567"` starts with `+`, yet its 10 digits trigger the `+1`
prefix and the output differs from the input. -/
theorem claim_C5_counterexample :
    jsStartsWith "+5551234567" "+" = true
    ∧ formatPhoneNumber "+5551234567" ≠ "+5551234567"
    ∧ formatPhoneNumber "+5551234567" = "+15551234567" := by decide

/-- **C5, amended.** Phone normalization applies its rules in order of
digit count first: 10 digits → `+1` prefix; 11 digits beginning `1` →
`+` prefix; only otherwise does an input starting with `+` pass through
unchanged; anything else gets `+` prepended to its digits.  The concrete
examples hold, and `isValidPhoneNumber` is true for every input with
exactly 10 digits. -/
theorem claim_C5_amended_phone (phone : String) :
    ((digitsOf phone).length = 10 →
      formatPhoneNumber phone = "+1" ++ String.mk (digitsOf phone))
    ∧ ((digitsOf phone).length = 11 → (digitsOf phone).head? = some '1' →
      formatPhoneNumber phone = "+" ++ String.mk (digitsOf phone))
    ∧ ((digitsOf phone).length ≠ 10 →
        ¬((digitsOf phone).length = 11 ∧ (digitsOf phone).head? = some '1') →
        jsStartsWith phone "+" = true → formatPhoneNumber phone = phone)
    ∧ ((digitsOf phone).length ≠ 10 →
        ¬((digitsOf phone).length = 11 ∧ (digitsOf phone).head? = some '1') →
        jsStartsWith phone "+" = false →
        formatPhoneNumber phone = "+" ++ String.mk (digitsOf phone))
    ∧ formatPhoneNumber "5551234567" = "+15551234567"
    ∧ formatPhoneNumber "15551234567" = "+15551234567"
    ∧ ((digitsOf phone).length = 10 → isValidPhoneNumber phone = true) := by
  have h1 : (digitsOf phone).length = 10 →
      formatPhoneNumber phone = "+1" ++ String.mk (digitsOf phone) := by
    intro h
    simp only [formatPhoneNumber]
    rw [if_pos h]
  refine ⟨h1, ?_, ?_, ?_, by decide, by decide, ?_⟩
  · intro h11 hhead
    simp only [formatPhoneNumber]
    rw [if_neg (by omega), if_pos ⟨h11, hhead⟩]
  · intro h10 hcond hplus
    simp only [formatPhoneNumber]
    rw [if_neg h10, if_neg hcond, if_pos hplus]
  · intro h10 hcond hplus
    simp only [formatPhoneNumber]
    rw [if_neg h10, if_neg hcond, if_neg (by simp [hplus])]
  · intro h10
    have hfmt := h1 h10
    have hdigits : ∀ c ∈ digitsOf phone, c.isDigit = true := by
      intro c hc
      exact List.of_mem_filter hc
    unfold isValidPhoneNumber
    rw [hfmt]
    have hdata : ("+1" ++ String.mk (digitsOf phone)).toList =
        '+' :: '1' :: digitsOf phone := by
      show ("+1" ++ String.mk (digitsOf phone)).data = _
      rw [String.data_append]
      rfl
    unfold e164Match
    rw [hdata]
    simp only [List.all_cons, List.length_cons, h10]
    rw [List.all_eq_true.mpr hdigits]
    decide

/-- Witness for C5 (amended): a formatted 10-digit US number, a
pass-through international number, and a validity check. -/
theorem claim_C5_amended_phone_witness :
    formatPhoneNumber "(555) 123-4567" =
      "+1" ++ String.mk (digitsOf "(555) 123-4567")
    ∧ formatPhoneNumber "+442012345678" = "+442012345678"
    ∧ isValidPhoneNumber "(555) 123-4567" = true :=
  ⟨(claim_C5_amended_phone "(555) 123-4567").1 (by decide),
   (claim_C5_amended_phone "+442012345678").2.2.1 (by decide) (by decide)
     (by decide),
   (claim_C5_amended_phone "(555) 123-4567").2.2.2.2.2.2 (by decide)⟩

/-- **C7.** `analyzePrompt` never raises: when the remote generation call
throws (or its output cannot be decoded), it returns the fixed fallback
analysis with occasion `"celebration"`, tone `"celebratory"`, style
`"cartoon"` and empty interests; consequently every workflow run records
an analysis and proceeds to the illustrating step — the analyzing step
alone never aborts the pipeline. -/
theorem claim_C7_analyze_fallback :
    analyzePrompt none = fallbackAnalysis
    ∧ fallbackAnalysis.occasion = "celebration"
    ∧ fallbackAnalysis.tone = "celebratory"
    ∧ fallbackAnalysis.illustrationStyle = "cartoon"
    ∧ fallbackAnalysis.interests = []
    ∧ (∀ (agents : AgentStubs) (decoded : Option AnalysisJson)
        (prompt : String) (userId : Option String) (t : Nat),
        (generateCard agents decoded prompt userId t).state.analysis =
          some (analyzePrompt decoded)
        ∧ "illustrating" ∈ (generateCard agents decoded prompt userId t).trace) := by
  refine ⟨rfl, rfl, rfl, rfl, rfl, ?_⟩
  intro agents decoded prompt userId t
  unfold generateCard
  dsimp only
  split
  · split
    · exact ⟨rfl, by simp⟩
    · exact ⟨rfl, by simp⟩
  · exact ⟨rfl, by simp⟩

/-- **C8.** Variation-prompt parsing keeps only lines whose trimmed text
begins with digits followed by `.`, `)` or `:`; if fewer than 3 parsed
prompts remain (or the remote call throws), the whole result is the
3-element fallback triplet — the result always has exactly 3 prompts. -/
theorem claim_C8_image_prompts (result : Option String) (input : MadlibInputG) :
    (generateImagePrompts result input).length = 3
    ∧ (∀ text, result = some text → (parsedPrompts text).length < 3 →
        generateImagePrompts result input = getFallbackPrompts input)
    ∧ (∀ text p, result = some text → 3 ≤ (parsedPrompts text).length →
        p ∈ generateImagePrompts result input →
        ∃ line, line ∈ jsSplit text '\n'
          ∧ numPrefixMatch (jsTrim line).toList = true
          ∧ p = jsTrim (String.mk (stripNumPrefix line.toList))) := by
  have hfb : ∀ inp : MadlibInputG, (getFallbackPrompts inp).length = 3 :=
    fun _ => rfl
  have htk : ∀ text, (parsedPrompts text).length ≤ 3 := by
    intro text
    unfold parsedPrompts
    rw [List.length_take]
    exact Nat.min_le_left _ _
  refine ⟨?_, ?_, ?_⟩
  · cases result with
    | none => exact hfb input
    | some text =>
      show (if (parsedPrompts text).length < 3 then getFallbackPrompts input
        else parsedPrompts text).length = 3
      split
      · exact hfb input
      · have := htk text
        omega
  · intro text htext hlt
    subst htext
    show (if (parsedPrompts text).length < 3 then getFallbackPrompts input
      else parsedPrompts text) = getFallbackPrompts input
    rw [if_pos hlt]
  · intro text p htext hge hp
    subst htext
    have hres : generateImagePrompts (some text) input = parsedPrompts text := by
      show (if (parsedPrompts text).length < 3 then getFallbackPrompts input
        else parsedPrompts text) = parsedPrompts text
      rw [if_neg (by omega)]
    rw [hres] at hp
    unfold parsedPrompts at hp
    have hp' := List.take_subset _ _ hp
    rw [List.mem_filter] at hp'
    obtain ⟨hp'', _⟩ := hp'
    rw [List.mem_map] at hp''
    obtain ⟨line, hline, hform⟩ := hp''
    rw [List.mem_filter] at hline
    exact ⟨line, hline.1, hline.2, hform.symm⟩

/-- Witness for C8: a response with a single valid line falls back to the
3-prompt triplet, and a well-formed 3-line response yields prompts that
each come from a numbered line. -/
theorem claim_C8_image_prompts_witness :
    generateImagePrompts (some "1. only one line")
        ⟨"Ana", "Birthday", none, ["golf"], none, none⟩ =
      getFallbackPrompts ⟨"Ana", "Birthday", none, ["golf"], none, none⟩
    ∧ ∃ line, line ∈ jsSplit "1. a\n2) b\n3: c" '\n'
        ∧ numPrefixMatch (jsTrim line).toList = true
        ∧ "a" = jsTrim (String.mk (stripNumPrefix line.toList)) :=
  ⟨(claim_C8_image_prompts (some "1. only one line")
      ⟨"Ana", "Birthday", none, ["golf"], none, none⟩).2.1
      "1. only one line" rfl (by decide),
   (claim_C8_image_prompts (some "1. a\n2) b\n3: c")
      ⟨"Ana", "Birthday", none, ["golf"], none, none⟩).2.2
      "1. a\n2) b\n3: c" "a" rfl (by decide) (by decide)⟩

/-- **C2.** When the illustration step reports failure (`success = false`
or a missing layer tree), the orchestrator aborts: the final
`current_step` is `"failed"`, the errors list is non-empty, the editing,
animating and shopping agents are never invoked, and the partial state
(analysis, prompt) is still returned to the caller. -/
theorem claim_C2_abort (agents : AgentStubs) (decoded : Option AnalysisJson)
    (prompt : String) (userId : Option String) (t : Nat)
    (h : (agents.illustrate (mkIllustrationRequest prompt (analyzePrompt decoded))).success = false
       ∨ (agents.illustrate (mkIllustrationRequest prompt (analyzePrompt decoded))).layerTree = none) :
    (generateCard agents decoded prompt userId t).state.currentStep = "failed"
    ∧ (generateCard agents decoded prompt userId t).state.errors ≠ []
    ∧ (generateCard agents decoded prompt userId t).editorCalled = false
    ∧ (generateCard agents decoded prompt userId t).animatorCalled = false
    ∧ (generateCard agents decoded prompt userId t).giftCalled = false
    ∧ (generateCard agents decoded prompt userId t).state.analysis =
        some (analyzePrompt decoded)
    ∧ (generateCard agents decoded prompt userId t).state.prompt = prompt := by
  unfold generateCard
  dsimp only
  split
  · rename_i hs hl
    rcases h with h | h
    · rw [hs] at h
      cases h
    · rw [hl] at h
      cases h
  · exact ⟨rfl, by simp, rfl, rfl, rfl, rfl, rfl⟩

/-- Witness for C2: a run whose illustration stub fails ends in
`"failed"` with an error recorded and no downstream agent invoked. -/
theorem claim_C2_abort_witness :
    (generateCard failingIllustratorAgents none "hi" (some "u1") 0).state.currentStep = "failed"
    ∧ (generateCard failingIllustratorAgents none "hi" (some "u1") 0).state.errors ≠ []
    ∧ (generateCard failingIllustratorAgents none "hi" (some "u1") 0).editorCalled = false
    ∧ (generateCard failingIllustratorAgents none "hi" (some "u1") 0).animatorCalled = false
    ∧ (generateCard failingIllustratorAgents none "hi" (some "u1") 0).giftCalled = false
    ∧ (generateCard failingIllustratorAgents none "hi" (some "u1") 0).state.analysis =
        some (analyzePrompt none)
    ∧ (generateCard failingIllustratorAgents none "hi" (some "u1") 0).state.prompt = "hi" :=
  claim_C2_abort failingIllustratorAgents none "hi" (some "u1") 0 (Or.inl rfl)

/-- **C3, counterexample.** The claim says `current_step` is never
`"shopping"` in a run without a `userId`, but the assignment
`state.currentStep = 'shopping'` precedes the `if (userId)` guard, so the
label is entered on every successful run; and in a run with a `userId`
whose illustration step fails, the shopping step does not run at all. -/
theorem claim_C3_counterexample :
    (generateCard actualAgents none "a birthday card" none 0).state.userId = none
    ∧ "shopping" ∈ (generateCard actualAgents none "a birthday card" none 0).trace
    ∧ (generateCard failingIllustratorAgents none "hi" (some "u1") 0).giftCalled = false := by
  decide

/-- **C3, amended.** With no `userId` the final state contains no gift
recommendations and no suggested friends and the gift agent is never
invoked — but `current_step` still passes through `"shopping"` on every
non-failed run, because the label is assigned before the `userId` guard.
With a `userId`, on every non-failed run the gift agent runs, and the
step order places shopping after animating. -/
theorem claim_C3_amended_shopping (agents : AgentStubs)
    (decoded : Option AnalysisJson) (prompt : String) (userId : Option String)
    (t : Nat) :
    (userId = none →
      (generateCard agents decoded prompt userId t).state.giftRecommendations = none
      ∧ (generateCard agents decoded prompt userId t).state.suggestedFriends = none
      ∧ (generateCard agents decoded prompt userId t).giftCalled = false)
    ∧ (∀ uid, userId = some uid →
        (generateCard agents decoded prompt userId t).state.currentStep ≠ "failed" →
        (generateCard agents decoded prompt userId t).giftCalled = true
        ∧ (generateCard agents decoded prompt userId t).trace =
            ["start", "analyzing", "illustrating", "editing", "animating",
             "shopping", "complete"])
    ∧ ((generateCard agents decoded prompt userId t).state.currentStep ≠ "failed" →
        "shopping" ∈ (generateCard agents decoded prompt userId t).trace) := by
  unfold generateCard
  dsimp only
  split
  · split
    · exact ⟨fun hnone => absurd hnone (by simp),
        fun uid' _ _ => ⟨rfl, rfl⟩,
        fun _ => (by simp)⟩
    · exact ⟨fun _ => ⟨rfl, rfl, rfl⟩,
        fun uid' huid' => absurd huid' (by simp),
        fun _ => (by simp)⟩
  · exact ⟨fun _ => ⟨rfl, rfl, rfl⟩, fun uid' _ hstep => absurd rfl hstep,
      fun hstep => absurd rfl hstep⟩

/-- Witness for C3 (amended): a concrete run without a `userId` stores no
recommendations yet its trace passes through `"shopping"`; a run with a
`userId` invokes the gift agent with shopping after animating. -/
theorem claim_C3_amended_shopping_witness :
    ((generateCard actualAgents none "x" none 0).state.giftRecommendations = none
      ∧ (generateCard actualAgents none "x" none 0).state.suggestedFriends = none
      ∧ (generateCard actualAgents none "x" none 0).giftCalled = false)
    ∧ ((generateCard actualAgents none "x" (some "u1") 0).giftCalled = true
      ∧ (generateCard actualAgents none "x" (some "u1") 0).trace =
          ["start", "analyzing", "illustrating", "editing", "animating",
           "shopping", "complete"])
    ∧ "shopping" ∈ (generateCard actualAgents none "x" none 0).trace :=
  ⟨(claim_C3_amended_shopping actualAgents none "x" none 0).1 rfl,
   (claim_C3_amended_shopping actualAgents none "x" (some "u1") 0).2.1 "u1" rfl
     (by decide),
   (claim_C3_amended_shopping actualAgents none "x" none 0).2.2 (by decide)⟩

/-- **C9.** When the illustration step succeeded with tree `tree` and the
editor stub reports failure (`success = false` or a missing tree), the
design tree is kept unchanged through the editing step and no error is
recorded; the animating step's output then unconditionally replaces the
design tree. -/
theorem claim_C9_soft_fail (agents : AgentStubs) (decoded : Option AnalysisJson)
    (prompt : String) (userId : Option String) (t : Nat) (tree : LayerTree)
    (hS : (agents.illustrate (mkIllustrationRequest prompt (analyzePrompt decoded))).success = true)
    (hL : (agents.illustrate (mkIllustrationRequest prompt (analyzePrompt decoded))).layerTree = some tree)
    (hE : (agents.refineTextLayers tree (analyzePrompt decoded)).success = false
        ∨ (agents.refineTextLayers tree (analyzePrompt decoded)).layerTree = none) :
    editStepTree tree (agents.refineTextLayers tree (analyzePrompt decoded)) = tree
    ∧ (generateCard agents decoded prompt userId t).state.errors = []
    ∧ (generateCard agents decoded prompt userId t).state.layerTree =
        some (agents.addAnimations tree (analyzePrompt decoded)) := by
  have hedit : editStepTree tree (agents.refineTextLayers tree (analyzePrompt decoded)) = tree := by
    unfold editStepTree
    rcases hE with h | h
    · rw [h]
    · rw [h]
      split
      · rename_i hs hn
        exact Option.noConfusion hn
      · rfl
  refine ⟨hedit, ?_⟩
  unfold generateCard
  dsimp only
  rw [hS, hL]
  dsimp only
  rw [hedit]
  cases userId with
  | some uid => exact ⟨rfl, rfl⟩
  | none => exact ⟨rfl, rfl⟩

/-- Witness for C9: a run whose editor stub fails keeps the illustration
tree, records no error, and the animator output becomes the final tree. -/
theorem claim_C9_soft_fail_witness :
    editStepTree ((illustratorGenerateDesign
        (mkIllustrationRequest "hi" (analyzePrompt none))).layerTree.getD
          (.node "" "" none [] []))
        (failingEditorAgents.refineTextLayers
          ((illustratorGenerateDesign
            (mkIllustrationRequest "hi" (analyzePrompt none))).layerTree.getD
              (.node "" "" none [] []))
          (analyzePrompt none)) =
      ((illustratorGenerateDesign
        (mkIllustrationRequest "hi" (analyzePrompt none))).layerTree.getD
          (.node "" "" none [] []))
    ∧ (generateCard failingEditorAgents none "hi" none 0).state.errors = []
    ∧ (generateCard failingEditorAgents none "hi" none 0).state.layerTree =
        some (failingEditorAgents.addAnimations
          ((illustratorGenerateDesign
            (mkIllustrationRequest "hi" (analyzePrompt none))).layerTree.getD
              (.node "" "" none [] []))
          (analyzePrompt none)) :=
  claim_C9_soft_fail failingEditorAgents none "hi" none 0
    ((illustratorGenerateDesign
      (mkIllustrationRequest "hi" (analyzePrompt none))).layerTree.getD
        (.node "" "" none [] []))
    rfl rfl (Or.inl rfl)

lemma estimateProductPrice_zero : estimateProductPrice 0 = 20 := by
  unfold estimateProductPrice round2
  norm_num

lemma estimateProductPrice_half : estimateProductPrice (1/2) = 110 := by
  unfold estimateProductPrice round2
  norm_num

/-- A product-card issuance for a known merchant fails whenever the
inner `issueGiftCard` call on the estimated price fails. -/
lemma isErr_issueProductGiftCard_of (mid url email : String) (r : ℚ)
    (env : IssuanceEnv)
    (h : isErr (issueGiftCard mid (estimateProductPrice r) email env) = true)
    (hsome : (getMerchant mid).isSome = true) :
    isErr (issueProductGiftCard mid url email r env) = true := by
  unfold issueProductGiftCard
  cases hg : getMerchant mid with
  | none =>
    rw [hg] at hsome
    cases hsome
  | some mm =>
    dsimp only
    cases hi : issueGiftCard mid (estimateProductPrice r) email env with
    | error e => rfl
    | ok gc =>
      rw [hi] at h
      cases h

lemma isErr_issueGiftCard_apple (email : String) (env : IssuanceEnv) :
    isErr (issueGiftCard "apple" 20 email env) = true := by
  unfold issueGiftCard
  rw [show getMerchant "apple" =
    some ⟨"apple", "Apple", "https://logo.clearbit.com/apple.com",
      ["electronics", "technology"], 25, 2000, "USD", true,
      some "For apps, games, music, and more"⟩ from by decide]
  dsimp only
  rw [if_pos (Or.inl (by decide))]
  rfl

lemma isErr_issueGiftCard_spotify (email : String) (env : IssuanceEnv) :
    isErr (issueGiftCard "spotify" 110 email env) = true := by
  unfold issueGiftCard
  rw [show getMerchant "spotify" =
    some ⟨"spotify", "Spotify", "https://logo.clearbit.com/spotify.com",
      ["entertainment", "music"], 10, 100, "USD", true,
      some "Music for everyone"⟩ from by decide]
  dsimp only
  rw [if_pos (Or.inr (by decide))]
  rfl

lemma isErr_issueGiftCard_netflix (email : String) (env : IssuanceEnv) :
    isErr (issueGiftCard "netflix" 20 email env) = true := by
  unfold issueGiftCard
  rw [show getMerchant "netflix" =
    some ⟨"netflix", "Netflix", "https://logo.clearbit.com/netflix.com",
      ["entertainment", "streaming"], 25, 200, "USD", true,
      some "Watch TV shows and movies"⟩ from by decide]
  dsimp only
  rw [if_pos (Or.inl (by decide))]
  rfl

lemma isErr_issueGiftCard_nike (email : String) (env : IssuanceEnv) :
    isErr (issueGiftCard "nike" 20 email env) = true := by
  unfold issueGiftCard
  rw [show getMerchant "nike" =
    some ⟨"nike", "Nike", "https://logo.clearbit.com/nike.com",
      ["sports", "clothing", "shoes"], 25, 500, "USD", true,
      some "Athletic shoes and apparel"⟩ from by decide]
  dsimp only
  rw [if_pos (Or.inl (by decide))]
  rfl

/-- **C10 (implicit).** `issueProductGiftCard` derives the card amount
from the mock price estimate (a `Math.random()` draw mapped into
`[20, 200)`) and passes it through `issueGiftCard`'s range check, so for
every catalog merchant whose `max_value` is below 200 or whose
`min_value` is above 20 (Apple, Spotify, Netflix, Nike) some possible
draw makes the call throw the "Amount must be between" error even though
the caller supplied no amount. -/
theorem claim_C10_product_price (m : GiftCardMerchant) (hm : m ∈ mockCatalog)
    (h : m.max_value < 200 ∨ 20 < m.min_value)
    (productUrl recipientEmail : String) (env : IssuanceEnv) :
    ∃ r : ℚ, 0 ≤ r ∧ r < 1
      ∧ isErr (issueProductGiftCard m.id productUrl recipientEmail r env) = true := by
  fin_cases hm
  · exact absurd h (by decide)
  · exact absurd h (by decide)
  · exact absurd h (by decide)
  · exact absurd h (by decide)
  · -- apple: min_value 25 > 20; the draw 0 estimates price 20 < 25
    exact ⟨0, by norm_num, by norm_num,
      isErr_issueProductGiftCard_of _ productUrl recipientEmail 0 env
        (by rw [estimateProductPrice_zero]
            exact isErr_issueGiftCard_apple recipientEmail env)
        (by decide)⟩
  · -- spotify: max_value 100 < 200; the draw 1/2 estimates price 110 > 100
    exact ⟨1/2, by norm_num, by norm_num,
      isErr_issueProductGiftCard_of _ productUrl recipientEmail (1/2) env
        (by rw [estimateProductPrice_half]
            exact isErr_issueGiftCard_spotify recipientEmail env)
        (by decide)⟩
  · -- netflix: min_value 25 > 20
    exact ⟨0, by norm_num, by norm_num,
      isErr_issueProductGiftCard_of _ productUrl recipientEmail 0 env
        (by rw [estimateProductPrice_zero]
            exact isErr_issueGiftCard_netflix recipientEmail env)
        (by decide)⟩
  · exact absurd h (by decide)
  · exact absurd h (by decide)
  · exact absurd h (by decide)
  · -- nike: min_value 25 > 20
    exact ⟨0, by norm_num, by norm_num,
      isErr_issueProductGiftCard_of _ productUrl recipientEmail 0 env
        (by rw [estimateProductPrice_zero]
            exact isErr_issueGiftCard_nike recipientEmail env)
        (by decide)⟩
  · exact absurd h (by decide)

/-- Witness for C10 at Spotify (`max_value = 100 < 200`): some possible
`Math.random()` draw makes the product-card issuance throw. -/
theorem claim_C10_product_price_witness :
    ∃ r : ℚ, 0 ≤ r ∧ r < 1
      ∧ isErr (issueProductGiftCard "spotify" "https://amazon.com/p" "a@b.com" r
          ⟨0, "r", "c", "p"⟩) = true :=
  claim_C10_product_price
    ⟨"spotify", "Spotify", "https://logo.clearbit.com/spotify.com",
     ["entertainment", "music"], 10, 100, "USD", true,
     some "Music for everyone"⟩
    (by decide) (by decide) "https://amazon.com/p" "a@b.com" ⟨0, "r", "c", "p"⟩

end PopGifts
